import Mathlib

/-!
# Verification of `torchaudio/sox_effects.py`

A shallow embedding of the effects-chain module: the module-level SoX
lifecycle functions (`initialize_sox`, `shutdown_sox`) and the
`SoxEffectsChain` class (`append_effect_to_chain`, `sox_build_flow_effects`,
`clear_chain`, `set_input_file`, `_check_effect`, `_flatten`).

Python values that can appear as effect arguments are modelled by `PyVal`
(integer and string scalars, and nested lists).  Python exceptions are
modelled with `Except`; the engine (`_torchaudio`) is external, so its
status codes and the argument record it receives are modelled explicitly.
Recursion depth of the recursive `_flatten` helper is modelled with fuel
(`none` = the call does not return, i.e. Python's `RecursionError`).
-/

namespace SoxEffects

/-- A Python value usable as an effect argument: an `int`, a `str`, or a
(possibly nested) `list` of such values. -/
inductive PyVal where
  | pInt : Int → PyVal
  | pStr : String → PyVal
  | pList : List PyVal → PyVal

/-- Python `str()` on the scalar leaves that `_flatten` stringifies
(`[str(a) for a in x[:1]]` runs only when `x[0]` is not a `list`, so the
`pList` case is never reached by the embedding). -/
def pyStr : PyVal → String
  | .pInt n => toString n
  | .pStr s => s
  | .pList _ => ""

/-- Python `str.lower()` — ASCII case folding, character by character
(effect names are ASCII). -/
def pyLower (s : String) : String := ⟨s.data.map Char.toLower⟩

/-- The `SoxEffect` record passed to the engine: `ename` (effect name) and
`eopts` (list of option strings) — `sox_effects.py` line 91. -/
structure SoxEffect where
  ename : String
  eopts : List String
deriving DecidableEq, Repr

/-- The Python exceptions raised by the chain methods (structured; the
formatted message text is presentation only):
`NotImplementedError("This effect ({e}) is not implement in torchaudio")`,
`LookupError("Effect name, {e.lower()}, not valid")`, and
`RuntimeError("Number of effect options ({n}) is greater than max ...")`
carrying the flattened length and the configured maximum. -/
inductive SoxError where
  | notImplementedError : String → SoxError
  | lookupError : String → SoxError
  | runtimeError : Nat → Nat → SoxError
deriving DecidableEq, Repr

deriving instance DecidableEq for Except

/-- Set `SoxEffectsChain.EFFECTS_UNIMPLEMENTED` (line 146). -/
def EFFECTS_UNIMPLEMENTED : List String := ["spectrogram", "splice", "noiseprof", "fir"]

/-- The state of a `SoxEffectsChain` instance (`__init__`, lines 148–164).
`σ`, `ε`, `ν` abstract the `sox_signalinfo_t` hint, the `sox_encodinginfo_t`
hint and the `normalization` parameter, which this layer only stores and
hands on.  `EFFECTS_AVAILABLE` is the registry snapshot `set(effect_names())`
taken at construction. -/
structure SoxEffectsChain (σ ε ν : Type) where
  input_file : Option String
  chain : List SoxEffect
  MAX_EFFECT_OPTS : Nat
  out_siginfo : Option σ
  out_encinfo : Option ε
  filetype : String
  normalization : ν
  channels_first : Bool
  EFFECTS_AVAILABLE : List String
deriving DecidableEq, Repr

/-- Constructor `SoxEffectsChain.__init__` (lines 148–164): `effectNames`
stands for the engine query `effect_names()`. -/
def SoxEffectsChain.init (effectNames : List String) (normalization : ν)
    (channels_first : Bool) (out_siginfo : Option σ) (out_encinfo : Option ε)
    (filetype : String) : SoxEffectsChain σ ε ν :=
  { input_file := none
    chain := []
    MAX_EFFECT_OPTS := 20
    out_siginfo := out_siginfo
    out_encinfo := out_encinfo
    filetype := filetype
    normalization := normalization
    channels_first := channels_first
    EFFECTS_AVAILABLE := effectNames }

/-- Method `SoxEffectsChain._check_effect` (lines 243–248). -/
def SoxEffectsChain.check_effect (c : SoxEffectsChain σ ε ν) (e : String) :
    Except SoxError String :=
  if pyLower e ∈ EFFECTS_UNIMPLEMENTED then
    .error (.notImplementedError e)
  else if pyLower e ∉ c.EFFECTS_AVAILABLE then
    .error (.lookupError (pyLower e))
  else
    .ok (pyLower e)

/-- Method `SoxEffectsChain._flatten` (lines 252–257), with explicit
recursion fuel: each Python call frame consumes one unit, and `none` models
a call that never returns (`RecursionError`).  Mirrors the source
literally: when `x[0]` is a list the code returns
`self._flatten(x[:1]) + self._flatten(x[:1])` (both calls on `x[:1]`, that
is `[x[0]]`), otherwise `[str(a) for a in x[:1]] + self._flatten(x[1:])`. -/
def flatten : Nat → List PyVal → Option (List String)
  | 0, _ => none
  | _ + 1, [] => some []
  | fuel + 1, x :: rest =>
    match x with
    | .pList l =>
      match flatten fuel [PyVal.pList l], flatten fuel [PyVal.pList l] with
      | some a, some b => some (a ++ b)
      | _, _ => none
    | v => (flatten fuel rest).map (fun r => pyStr v :: r)

/-- Argument normalization in `append_effect_to_chain` (lines 178–181):
`None` or `[]` become `[""]`; a non-list scalar is wrapped; a non-empty
list is kept. -/
def eargsList : Option PyVal → List PyVal
  | none => [.pStr ""]
  | some (.pList []) => [.pStr ""]
  | some (.pList l) => l
  | some v => [v]

/-- Method `SoxEffectsChain.append_effect_to_chain` (lines 166–189),
threading the chain state: the result is the raised exception or `()`
together with the state of the object afterwards (`self.chain.append(e)`
is the only mutation, and it happens last).  The outer `Option` is the
`_flatten` fuel: `none` means the call never returns. -/
def SoxEffectsChain.append_effect_to_chain (fuel : Nat) (c : SoxEffectsChain σ ε ν)
    (ename : String) (eargs : Option PyVal) :
    Option (Except SoxError Unit × SoxEffectsChain σ ε ν) :=
  match c.check_effect ename with
  | .error err => some (.error err, c)
  | .ok name =>
    match flatten fuel (eargsList eargs) with
    | none => none
    | some opts =>
      if opts.length > c.MAX_EFFECT_OPTS then
        some (.error (.runtimeError opts.length c.MAX_EFFECT_OPTS), c)
      else
        some (.ok (), { c with chain := c.chain ++ [⟨name, opts⟩] })

/-- The argument record handed to the engine call
`_torchaudio.build_flow_effects(...)` (lines 217–224). -/
structure EngineCall (σ ε : Type) where
  input_file : Option String
  channels_first : Bool
  out_siginfo : Option σ
  out_encinfo : Option ε
  filetype : String
  effects : List SoxEffect
  max_effect_opts : Nat
deriving DecidableEq, Repr

/-- Method `SoxEffectsChain.sox_build_flow_effects` (lines 192–228)
restricted to its chain-visible behaviour: the tensor allocation, the
engine's sample rate and the in-place normalization do not touch the chain
object.  If the chain is empty a `no_effects` sentinel is appended to
`self.chain` (lines 209–213); the engine then receives `self.chain` and
the object is left in that state.  Returns (engine-call record, state of
the chain object afterwards). -/
def SoxEffectsChain.sox_build_flow_effects (c : SoxEffectsChain σ ε ν) :
    EngineCall σ ε × SoxEffectsChain σ ε ν :=
  let c' := if c.chain.length = 0
    then { c with chain := c.chain ++ [⟨"no_effects", [""]⟩] }
    else c
  (⟨c'.input_file, c'.channels_first, c'.out_siginfo, c'.out_encinfo,
    c'.filetype, c'.chain, c'.MAX_EFFECT_OPTS⟩, c')

/-- Method `SoxEffectsChain.clear_chain` (lines 230–233). -/
def SoxEffectsChain.clear_chain (c : SoxEffectsChain σ ε ν) : SoxEffectsChain σ ε ν :=
  { c with chain := [] }

/-- Method `SoxEffectsChain.set_input_file` (lines 235–241). -/
def SoxEffectsChain.set_input_file (c : SoxEffectsChain σ ε ν) (f : String) :
    SoxEffectsChain σ ε ν :=
  { c with input_file := some f }

/-- The Python module-level flag `_SOX_INITIALIZED` (line 17): `False` =
not initialized, `True` = initialized, `None` = already shut down. -/
inductive SoxFlag where
  | pyFalse
  | pyTrue
  | pyNone
deriving DecidableEq, Repr

/-- Python `==` between an `int` status code and the flag's value:
`0 == False` and `1 == True` hold in Python; nothing equals `None`. -/
def pyEqIntFlag (code : Int) : SoxFlag → Bool
  | .pyFalse => code == 0
  | .pyTrue => code == 1
  | .pyNone => false

/-- Constant `_SOX_SUCCESS_CODE` (line 23). -/
def SOX_SUCCESS_CODE : Int := 0

/-- Function `initialize_sox` (lines 29–53).  `engineCode` stands for the
external call `_torchaudio.initialize_sox()`.  Result: the raised
`RuntimeError` (already-shut-down case), or (new flag value, returned
code, whether the engine was invoked). -/
def initialize_sox (engineCode : Int) : SoxFlag → Except Unit (SoxFlag × Int × Bool)
  | .pyNone => .error ()
  | .pyFalse =>
    if engineCode = SOX_SUCCESS_CODE then .ok (.pyTrue, engineCode, true)
    else .ok (.pyFalse, engineCode, true)
  | .pyTrue => .ok (.pyTrue, SOX_SUCCESS_CODE, false)

/-- Function `shutdown_sox` (lines 57–75).  `engineCode` stands for the
external call `_torchaudio.shutdown_sox()`.  Line 72 reads
`if code == _SOX_INITIALIZED:` — the status code is compared with the flag
value (which is `True` at that point), not with `_SOX_SUCCESS_CODE`; the
embedding keeps that comparison via `pyEqIntFlag`.  Result: (new flag
value, returned code, whether the engine was invoked). -/
def shutdown_sox (engineCode : Int) : SoxFlag → SoxFlag × Int × Bool
  | .pyTrue =>
    if pyEqIntFlag engineCode .pyTrue then (.pyNone, engineCode, true)
    else (.pyTrue, engineCode, true)
  | f => (f, SOX_SUCCESS_CODE, false)

/-- A concrete chain instance for witnesses: registry snapshot
`{"rate", "channels"}`, default configuration. -/
def cRate : SoxEffectsChain Unit Unit Unit :=
  SoxEffectsChain.init ["rate", "channels"] () true none none "raw"

/-- A chain with the configured maximum lowered to 1, for the C6 witness
(`MAX_EFFECT_OPTS` is a plain instance attribute). -/
def cMaxOne : SoxEffectsChain Unit Unit Unit :=
  { cRate with MAX_EFFECT_OPTS := 1 }

/-- A chain whose snapshot holds an entry with an upper-case letter, for
the C10 witness. -/
def cUpper : SoxEffectsChain Unit Unit Unit :=
  SoxEffectsChain.init ["rate", "Trim"] () true none none "raw"

/-- Sanity check: the embedding of `str.lower()` agrees with the library's
`String.toLower`. -/
theorem pyLower_eq_toLower (s : String) : pyLower s = s.toLower :=
  (String.map_eq Char.toLower s).symm

/-- Helper: whenever the head of the list handed to `_flatten` is itself a
list, the recursion never returns, whatever the fuel. -/
theorem flatten_cons_pList : ∀ (fuel : Nat) (l rest : List PyVal),
    flatten fuel (PyVal.pList l :: rest) = none := by
  intro fuel
  induction fuel with
  | zero => intro l rest; rfl
  | succ n ih => intro l rest; simp [flatten, ih]

/-- Helper: `Char.toLower` never yields an ASCII upper-case letter. -/
theorem toLower_not_upper (ch : Char) :
    ¬(65 ≤ (Char.toLower ch).toNat ∧ (Char.toLower ch).toNat ≤ 90) := by
  unfold Char.toLower
  by_cases h : ch.toNat ≥ 65 ∧ ch.toNat ≤ 90
  · rw [if_pos h]
    obtain ⟨h1, h2⟩ := h
    generalize ch.toNat = n at h1 h2 ⊢
    interval_cases n <;> decide
  · rw [if_neg h]
    exact fun hc => h ⟨hc.1, hc.2⟩

/-- Helper: no character of a lower-cased string is ASCII upper-case. -/
theorem pyLower_no_upper (s : String) (ch : Char) (hm : ch ∈ (pyLower s).data) :
    ¬(65 ≤ ch.toNat ∧ ch.toNat ≤ 90) := by
  obtain ⟨c0, _, rfl⟩ := List.mem_map.mp hm
  exact toLower_not_upper c0

/-- C1: `append_effect_to_chain("rate", [[16000]])` should store `["16000"]`
like `append_effect_to_chain("rate", 16000)` does, but `_flatten` recurses
on `x[:1]` instead of `x[0]` and never returns, for any recursion depth;
only the scalar call stores `["16000"]`. -/
theorem C1_append_nested_diverges :
    (∀ fuel, cRate.append_effect_to_chain fuel "rate"
      (some (.pList [.pList [.pInt 16000]])) = none) ∧
    cRate.append_effect_to_chain 2 "rate" (some (.pInt 16000)) =
      some (.ok (), { cRate with chain := [⟨"rate", ["16000"]⟩] }) := by
  constructor
  · intro fuel
    have hc : cRate.check_effect "rate" = .ok "rate" := by decide
    have he : eargsList (some (.pList [.pList [.pInt 16000]])) =
        [.pList [.pInt 16000]] := rfl
    simp only [SoxEffectsChain.append_effect_to_chain, hc, he,
      flatten_cons_pList]
  · decide

/-- C2: the flattening step never returns on the argument `[[16000]]` (nor
on any argument list whose head is a nested list), whatever the recursion
depth available. -/
theorem C2_flatten_nested_diverges :
    (∀ fuel, flatten fuel (eargsList (some (.pList [.pList [.pInt 16000]]))) = none) ∧
    (∀ (fuel : Nat) (l rest : List PyVal), flatten fuel (PyVal.pList l :: rest) = none) :=
  ⟨fun fuel => flatten_cons_pList fuel [.pInt 16000] [], flatten_cons_pList⟩

/-- C3 (counterexample): on a chain whose effect sequence is empty,
`sox_build_flow_effects` leaves the stored sequence holding the sentinel —
it is not empty again after the call returns. -/
theorem C3_counterexample :
    (cRate.sox_build_flow_effects).2.chain = [⟨"no_effects", [""]⟩] ∧
    (cRate.sox_build_flow_effects).2.chain.isEmpty = false := by decide

/-- C3 (amended): on an empty chain, execution hands the engine exactly the
one `no_effects` sentinel with a single empty-string option and appends it
to the stored sequence, where it persists; emptiness is re-evaluated each
call, so re-executing adds no second sentinel, and `clear_chain` followed
by execution injects a fresh sentinel. -/
theorem C3_sentinel_persists (c : SoxEffectsChain σ ε ν) (h : c.chain = []) :
    (c.sox_build_flow_effects).1.effects = [⟨"no_effects", [""]⟩] ∧
    (c.sox_build_flow_effects).2.chain = [⟨"no_effects", [""]⟩] ∧
    ((c.sox_build_flow_effects).2.sox_build_flow_effects).2.chain =
      [⟨"no_effects", [""]⟩] ∧
    (((c.sox_build_flow_effects).2.clear_chain).sox_build_flow_effects).2.chain =
      [⟨"no_effects", [""]⟩] := by
  simp [SoxEffectsChain.sox_build_flow_effects, SoxEffectsChain.clear_chain, h]

/-- C3 (witness): the amended statement at a concrete empty chain. -/
theorem C3_sentinel_persists_witness :
    cRate.chain = [] ∧
    ((cRate.sox_build_flow_effects).1.effects = [⟨"no_effects", [""]⟩] ∧
     (cRate.sox_build_flow_effects).2.chain = [⟨"no_effects", [""]⟩] ∧
     ((cRate.sox_build_flow_effects).2.sox_build_flow_effects).2.chain =
       [⟨"no_effects", [""]⟩] ∧
     (((cRate.sox_build_flow_effects).2.clear_chain).sox_build_flow_effects).2.chain =
       [⟨"no_effects", [""]⟩]) :=
  ⟨by decide, C3_sentinel_persists cRate (by decide)⟩

/-- C4: when the engine's shutdown returns the success status 0 from the
Initialized state, line 72 (`if code == _SOX_INITIALIZED:`) compares 0
with `True` (i.e. 1), so the flag stays `True` and a later
`initialize_sox` succeeds with 0 instead of raising; the flag would move
to `None` only on the status 1, which is not the success code. -/
theorem C4_shutdown_success_keeps_flag :
    shutdown_sox 0 .pyTrue = (.pyTrue, 0, true) ∧
    initialize_sox 0 .pyTrue = .ok (.pyTrue, 0, false) ∧
    shutdown_sox 1 .pyTrue = (.pyNone, 1, true) := by decide

/-- C5: validation fails with `NotImplementedError` when the lower-cased
name is in `EFFECTS_UNIMPLEMENTED`; otherwise with `LookupError` when the
lower-cased name is missing from the registry snapshot; otherwise returns
the lower-cased name — and `append_effect_to_chain` propagates a
validation failure unchanged, leaving the chain as it was. -/
theorem C5_validation_and_propagation (c : SoxEffectsChain σ ε ν) (e : String)
    (fuel : Nat) (eargs : Option PyVal) (err : SoxError) :
    (pyLower e ∈ EFFECTS_UNIMPLEMENTED →
      c.check_effect e = .error (.notImplementedError e)) ∧
    (pyLower e ∉ EFFECTS_UNIMPLEMENTED → pyLower e ∉ c.EFFECTS_AVAILABLE →
      c.check_effect e = .error (.lookupError (pyLower e))) ∧
    (pyLower e ∉ EFFECTS_UNIMPLEMENTED → pyLower e ∈ c.EFFECTS_AVAILABLE →
      c.check_effect e = .ok (pyLower e)) ∧
    (c.check_effect e = .error err →
      c.append_effect_to_chain fuel e eargs = some (.error err, c)) := by
  refine ⟨fun h1 => ?_, fun h1 h2 => ?_, fun h1 h2 => ?_, fun h => ?_⟩
  · simp [SoxEffectsChain.check_effect, h1]
  · simp [SoxEffectsChain.check_effect, h1, h2]
  · simp [SoxEffectsChain.check_effect, h1, h2]
  · simp [SoxEffectsChain.append_effect_to_chain, h]

/-- C5 (witness): `"SPLICE"` lower-cases into the unimplemented set, so
validation and `append_effect_to_chain` both fail with
`NotImplementedError`, and the chain is unchanged. -/
theorem C5_validation_and_propagation_witness :
    cRate.check_effect "SPLICE" = .error (.notImplementedError "SPLICE") ∧
    cRate.append_effect_to_chain 1 "SPLICE" none =
      some (.error (.notImplementedError "SPLICE"), cRate) := by
  have h := C5_validation_and_propagation cRate "SPLICE" 1 none
    (.notImplementedError "SPLICE")
  exact ⟨h.1 (by decide), h.2.2.2 (h.1 (by decide))⟩

/-- C6: a flattened option list longer than `MAX_EFFECT_OPTS` makes
`append_effect_to_chain` fail with the too-many-options `RuntimeError`,
and every failing `append_effect_to_chain` call leaves the chain state
exactly as it was (the only mutation, `self.chain.append(e)`, happens
after every check has passed). -/
theorem C6_too_many_options_no_partial_append (c : SoxEffectsChain σ ε ν)
    (ename : String) (eargs : Option PyVal) (fuel : Nat) (name : String)
    (opts : List String)
    (hname : c.check_effect ename = .ok name)
    (hflat : flatten fuel (eargsList eargs) = some opts)
    (hlen : opts.length > c.MAX_EFFECT_OPTS) :
    c.append_effect_to_chain fuel ename eargs =
      some (.error (.runtimeError opts.length c.MAX_EFFECT_OPTS), c) ∧
    (∀ (fuel' : Nat) (e' : String) (a' : Option PyVal) (err : SoxError)
      (c' : SoxEffectsChain σ ε ν),
      c.append_effect_to_chain fuel' e' a' = some (.error err, c') → c' = c) := by
  constructor
  · simp only [SoxEffectsChain.append_effect_to_chain, hname, hflat]
    rw [if_pos hlen]
  · intro fuel' e' a' err c' h
    unfold SoxEffectsChain.append_effect_to_chain at h
    cases hce : c.check_effect e' with
    | error err2 =>
      rw [hce] at h
      simp only [Option.some.injEq, Prod.mk.injEq] at h
      exact h.2.symm
    | ok nm =>
      rw [hce] at h
      cases hf : flatten fuel' (eargsList a') with
      | none => rw [hf] at h; simp at h
      | some o =>
        rw [hf] at h
        dsimp only at h
        by_cases hl : o.length > c.MAX_EFFECT_OPTS
        · rw [if_pos hl] at h
          simp only [Option.some.injEq, Prod.mk.injEq] at h
          exact h.2.symm
        · rw [if_neg hl] at h
          simp at h

/-- C6 (witness): two options against a configured maximum of 1. -/
theorem C6_too_many_options_witness :
    cMaxOne.check_effect "rate" = .ok "rate" ∧
    flatten 3 (eargsList (some (.pList [.pInt 1, .pInt 2]))) = some ["1", "2"] ∧
    (["1", "2"] : List String).length > cMaxOne.MAX_EFFECT_OPTS ∧
    cMaxOne.append_effect_to_chain 3 "rate" (some (.pList [.pInt 1, .pInt 2])) =
      some (.error (.runtimeError 2 1), cMaxOne) := by
  have h := C6_too_many_options_no_partial_append cMaxOne "rate"
    (some (.pList [.pInt 1, .pInt 2])) 3 "rate" ["1", "2"]
    (by decide) (by decide) (by decide)
  exact ⟨by decide, by decide, by decide, h.1⟩

/-- C7: a valid name with a flattened option list inside the maximum is
appended at the end of the chain, and a second valid append lands after
it: the stored order is `[A, B]`, insertion-ordered, duplicates
permitted. -/
theorem C7_append_succeeds_in_order (c : SoxEffectsChain σ ε ν)
    (eA eB : String) (aA aB : Option PyVal) (fA fB : Nat) (nA nB : String)
    (rA rB : List String)
    (hA : c.check_effect eA = .ok nA)
    (hfA : flatten fA (eargsList aA) = some rA)
    (hlA : rA.length ≤ c.MAX_EFFECT_OPTS)
    (hB : c.check_effect eB = .ok nB)
    (hfB : flatten fB (eargsList aB) = some rB)
    (hlB : rB.length ≤ c.MAX_EFFECT_OPTS) :
    c.append_effect_to_chain fA eA aA =
      some (.ok (), { c with chain := c.chain ++ [⟨nA, rA⟩] }) ∧
    ({ c with chain := c.chain ++ [⟨nA, rA⟩] } :
        SoxEffectsChain σ ε ν).append_effect_to_chain fB eB aB =
      some (.ok (), { c with chain := c.chain ++ [⟨nA, rA⟩, ⟨nB, rB⟩] }) := by
  constructor
  · simp only [SoxEffectsChain.append_effect_to_chain, hA, hfA]
    rw [if_neg (not_lt.mpr hlA)]
  · have hB' : ({ c with chain := c.chain ++ [⟨nA, rA⟩] } :
        SoxEffectsChain σ ε ν).check_effect eB = .ok nB := hB
    simp only [SoxEffectsChain.append_effect_to_chain, hB', hfB]
    rw [if_neg (not_lt.mpr hlB)]
    simp

/-- C7 (witness): appending `rate` (spelled `"RATE"`) then `channels` to an
empty chain stores them lower-cased, in insertion order. -/
theorem C7_append_succeeds_in_order_witness :
    cRate.append_effect_to_chain 2 "RATE" (some (.pInt 16000)) =
      some (.ok (), { cRate with chain := [⟨"rate", ["16000"]⟩] }) ∧
    ({ cRate with chain := [⟨"rate", ["16000"]⟩] } :
        SoxEffectsChain Unit Unit Unit).append_effect_to_chain 2 "channels"
        (some (.pStr "1")) =
      some (.ok (),
        { cRate with chain := [⟨"rate", ["16000"]⟩, ⟨"channels", ["1"]⟩] }) := by
  have h := C7_append_succeeds_in_order cRate "RATE" "channels"
    (some (.pInt 16000)) (some (.pStr "1")) 2 2 "rate" "channels"
    ["16000"] ["1"] (by decide) (by decide) (by decide) (by decide)
    (by decide) (by decide)
  exact ⟨h.1, h.2⟩

/-- C8: `clear_chain` empties the stored effect sequence and leaves the
input file, the normalization mode, the channels-first flag, the
signal/encoding hints, the file-type hint and the maximum-options bound
untouched; a following execution still passes the previously set input
file to the engine. -/
theorem C8_clear_chain_frame (c : SoxEffectsChain σ ε ν) :
    c.clear_chain.chain = [] ∧
    c.clear_chain.input_file = c.input_file ∧
    c.clear_chain.normalization = c.normalization ∧
    c.clear_chain.channels_first = c.channels_first ∧
    c.clear_chain.out_siginfo = c.out_siginfo ∧
    c.clear_chain.out_encinfo = c.out_encinfo ∧
    c.clear_chain.filetype = c.filetype ∧
    c.clear_chain.MAX_EFFECT_OPTS = c.MAX_EFFECT_OPTS ∧
    c.clear_chain.EFFECTS_AVAILABLE = c.EFFECTS_AVAILABLE ∧
    (c.clear_chain.sox_build_flow_effects).1.input_file = c.input_file := by
  refine ⟨rfl, rfl, rfl, rfl, rfl, rfl, rfl, rfl, rfl, ?_⟩
  simp [SoxEffectsChain.clear_chain, SoxEffectsChain.sox_build_flow_effects]

/-- C9: from the not-initialized flag, an engine failure code is returned
as is and the flag stays not-initialized (a retry remains possible); from
the initialized flag, `initialize_sox` returns the success code 0 without
invoking the engine. -/
theorem C9_initialize_sox_idempotent (k j : Int) (h : k ≠ 0) :
    initialize_sox k .pyFalse = .ok (.pyFalse, k, true) ∧
    initialize_sox j .pyTrue = .ok (.pyTrue, 0, false) := by
  constructor
  · simp [initialize_sox, SOX_SUCCESS_CODE, h]
  · rfl

/-- C9 (witness): failure code 5, then an already-initialized call. -/
theorem C9_initialize_sox_idempotent_witness :
    (5 : Int) ≠ 0 ∧
    (initialize_sox 5 .pyFalse = .ok (.pyFalse, 5, true) ∧
     initialize_sox 7 .pyTrue = .ok (.pyTrue, 0, false)) :=
  ⟨by decide, C9_initialize_sox_idempotent 5 7 (by decide)⟩

/-- C10: validation is literal membership of the lower-cased candidate in
the construction-time registry snapshot; a snapshot entry containing an
ASCII upper-case letter is unreachable (no input validates to it); and no
chain operation replaces the snapshot. -/
theorem C10_snapshot_literal_membership (c : SoxEffectsChain σ ε ν)
    (t f : String)
    (hup : ∃ ch ∈ t.data, 65 ≤ ch.toNat ∧ ch.toNat ≤ 90)
    (_ht : t ∈ c.EFFECTS_AVAILABLE) :
    (∀ e n, c.check_effect e = .ok n → n = pyLower e ∧ n ∈ c.EFFECTS_AVAILABLE) ∧
    (∀ e, c.check_effect e ≠ .ok t) ∧
    (∀ (fuel : Nat) (e : String) (a : Option PyVal)
      (r : Except SoxError Unit) (c' : SoxEffectsChain σ ε ν),
      c.append_effect_to_chain fuel e a = some (r, c') →
      c'.EFFECTS_AVAILABLE = c.EFFECTS_AVAILABLE) ∧
    c.clear_chain.EFFECTS_AVAILABLE = c.EFFECTS_AVAILABLE ∧
    (c.set_input_file f).EFFECTS_AVAILABLE = c.EFFECTS_AVAILABLE ∧
    (c.sox_build_flow_effects).2.EFFECTS_AVAILABLE = c.EFFECTS_AVAILABLE := by
  have hok : ∀ e n, c.check_effect e = .ok n →
      n = pyLower e ∧ n ∈ c.EFFECTS_AVAILABLE := by
    intro e n h
    unfold SoxEffectsChain.check_effect at h
    by_cases h1 : pyLower e ∈ EFFECTS_UNIMPLEMENTED
    · rw [if_pos h1] at h; exact absurd h (by simp)
    · rw [if_neg h1] at h
      by_cases h2 : pyLower e ∉ c.EFFECTS_AVAILABLE
      · rw [if_pos h2] at h; exact absurd h (by simp)
      · rw [if_neg h2] at h
        simp only [Except.ok.injEq] at h
        exact ⟨h.symm, h ▸ not_not.mp h2⟩
  refine ⟨hok, ?_, ?_, rfl, rfl, ?_⟩
  · intro e heq
    obtain ⟨hn, _⟩ := hok e t heq
    obtain ⟨ch, hch, hchup⟩ := hup
    have : ch ∈ (pyLower e).data := by rw [← hn]; exact hch
    exact pyLower_no_upper e ch this hchup
  · intro fuel e a r c' h
    unfold SoxEffectsChain.append_effect_to_chain at h
    cases hce : c.check_effect e with
    | error err2 =>
      rw [hce] at h
      simp only [Option.some.injEq, Prod.mk.injEq] at h
      rw [← h.2]
    | ok nm =>
      rw [hce] at h
      cases hf : flatten fuel (eargsList a) with
      | none => rw [hf] at h; simp at h
      | some o =>
        rw [hf] at h
        dsimp only at h
        by_cases hl : o.length > c.MAX_EFFECT_OPTS
        · rw [if_pos hl] at h
          simp only [Option.some.injEq, Prod.mk.injEq] at h
          rw [← h.2]
        · rw [if_neg hl] at h
          simp only [Option.some.injEq, Prod.mk.injEq] at h
          rw [← h.2]
  · unfold SoxEffectsChain.sox_build_flow_effects
    dsimp only
    split <;> rfl

/-- C10 (witness): the snapshot entry `"Trim"` has an upper-case letter;
`"RATE"` still validates to the literal lower-cased member `"rate"`, and
`clear_chain`/`set_input_file` keep the snapshot. -/
theorem C10_snapshot_literal_membership_witness :
    (∃ ch ∈ "Trim".data, 65 ≤ ch.toNat ∧ ch.toNat ≤ 90) ∧
    "Trim" ∈ cUpper.EFFECTS_AVAILABLE ∧
    ("rate" = pyLower "RATE" ∧ "rate" ∈ cUpper.EFFECTS_AVAILABLE) ∧
    cUpper.clear_chain.EFFECTS_AVAILABLE = cUpper.EFFECTS_AVAILABLE ∧
    (cUpper.set_input_file "f.wav").EFFECTS_AVAILABLE = cUpper.EFFECTS_AVAILABLE := by
  have h := C10_snapshot_literal_membership cUpper "Trim" "f.wav"
    (by decide) (by decide)
  exact ⟨by decide, by decide, h.1 "RATE" "rate" (by decide), h.2.2.2.1,
    h.2.2.2.2.1⟩

end SoxEffects
